import Mathlib

/-!
Verification of the CloudVault file-manager core (vault-cloud-sync).

The TypeScript source is shallowly embedded: strings are lists of characters
(`Str`), asynchronous operations are modelled by their settled outcomes
(`Except`), and each handler is a pure function from those outcomes to a
trace recording the messages emitted, the listing refreshes issued, and the
state left behind.  All definitions follow `src/src/components/FileManager.tsx`
(second revision, the one the navigation/path features belong to), except
where a doc comment says `Modelled from the spec:`.
-/

/-- A JavaScript string, modelled as its sequence of characters. -/
abbrev Str := List Char

namespace CloudVault

/- ## Key Codec -/

/-- The per-user key front segment `public/<userId>/` (FileManager.tsx line
383). -/
def storagePfx (u : Str) : Str :=
  "public/".data ++ u ++ "/".data

/-- The per-user bin front segment `public/<userId>/bin/` (FileManager.tsx
line 389). -/
def storageBinPfx (u : Str) : Str :=
  "public/".data ++ u ++ "/bin/".data

/-- Storage-key construction, from `handleUpload` (first revision,
FileManager.tsx line 115): the destination key is
`public/<userId>/<relativePath>`; keys in the bin carry a further `bin/`
segment (as stripped by `cleanBinFileKey`). -/
def toStorageKey (p u : Str) (inBin : Bool) : Str :=
  storagePfx u ++ (if inBin then "bin/".data ++ p else p)

/-- From `cleanFileKey` (FileManager.tsx lines 382-385): strip the
`public/<userId>/` front segment when present, else return the key
unchanged. -/
def cleanFileKey (key u : Str) : Str :=
  if key.take (storagePfx u).length = storagePfx u
  then key.drop (storagePfx u).length else key

/-- From `cleanBinFileKey` (FileManager.tsx lines 388-391): strip the
`public/<userId>/bin/` front segment when present. -/
def cleanBinFileKey (key u : Str) : Str :=
  if key.take (storageBinPfx u).length = storageBinPfx u
  then key.drop (storageBinPfx u).length else key

/-- A relative path contains the reserved bin segment when `bin/` occurs in
it at some position. -/
def hasBinSegment : Str → Bool
  | [] => false
  | c :: rest =>
      ((c :: rest).take 4 == "bin/".data) || hasBinSegment rest

/-- C1: Key Codec round-trip law — for every non-empty relative path `p`
without the reserved bin segment and every user identifier `u`, building the
storage key with `inBin = false` and stripping it back yields `p`. -/
theorem cleanFileKey_toStorageKey_roundtrip (p u : Str)
    (hne : p ≠ []) (hbin : hasBinSegment p = false) :
    cleanFileKey (toStorageKey p u false) u = p := by
  have hkey : toStorageKey p u false = storagePfx u ++ p := by
    simp [toStorageKey]
  rw [hkey]
  unfold cleanFileKey
  rw [List.take_left, if_pos rfl, List.drop_left]

/-- Witness for the round-trip law at `p = "notes.txt"`, `u = "u1"`. -/
theorem cleanFileKey_toStorageKey_roundtrip_witness :
    cleanFileKey (toStorageKey "notes.txt".data "u1".data false) "u1".data
      = "notes.txt".data :=
  cleanFileKey_toStorageKey_roundtrip "notes.txt".data "u1".data
    (by decide) (by decide)

/- ## Authenticated Request Gateway (`apiCall`, FileManager.tsx lines
394-444)

The gateway fetches the auth session; if no token is present it waits
1000 ms and recurses with one fewer retry (default 2), throwing
`Authentication token missing after retries.` once retries are exhausted.
With a token in hand it issues the HTTP call; a response whose status code
is at least 400 makes it throw with the response body as the message
(falling back to `API request failed` when the body is empty/falsy);
otherwise the parsed body is returned.  The model keeps the error *path*
distinguishable through the constructors of `ApiError` and records, in a
trace, how many times the session was fetched and how much backoff time was
accumulated. -/

/-- The distinguishable failure paths of `apiCall`. -/
inductive ApiError
  /-- Thrown at line 411: `Authentication token missing after retries.` -/
  | authNotReady
  /-- Thrown at line 437 on `statusCode >= 400`, carrying the message. -/
  | requestRejected (msg : Str)
  deriving DecidableEq, Repr

/-- An HTTP response as observed by `apiCall`: the status code and the
parsed JSON body (`none` models an empty/falsy body). -/
structure HttpResponse where
  statusCode : Nat
  body : Option Str
  deriving DecidableEq, Repr

/-- Trace of one `apiCall` invocation: its settled result, the number of
`fetchAuthSession` attempts made, and the total backoff waited (ms). -/
structure ApiCallTrace where
  result : Except ApiError (Option Str)
  tokenFetches : Nat
  waitMs : Nat
  deriving Repr

/-- The fallback message at line 437 when the error body is falsy. -/
def apiRequestFailedMsg : Str := "API request failed".data

/-- The token-in-hand tail of `apiCall` (FileManager.tsx lines 414-439):
issue the request; throw on `statusCode >= 400` with the body (or the
generic fallback), else return the parsed body. -/
def apiRespond (resp : HttpResponse) : ApiCallTrace :=
  if 400 ≤ resp.statusCode then
    ⟨.error (.requestRejected (resp.body.getD apiRequestFailedMsg)), 1, 0⟩
  else
    ⟨.ok resp.body, 1, 0⟩

/-- The body of `apiCall` (FileManager.tsx lines 394-444), unrolled over the
remaining-retries counter.  `tokenAt n` is the token the `n`-th
`fetchAuthSession` yields (`none` when the session has no id token yet);
`resp` is the control-plane's response once a token is available. -/
def apiCallFrom (tokenAt : Nat → Option Str) (resp : HttpResponse) :
    Nat → Nat → ApiCallTrace
  | attempt, 0 =>
    match tokenAt attempt with
    | some _ => apiRespond resp
    | none => ⟨.error .authNotReady, 1, 0⟩
  | attempt, r + 1 =>
    match tokenAt attempt with
    | some _ => apiRespond resp
    | none =>
        let t := apiCallFrom tokenAt resp (attempt + 1) r
        ⟨t.result, t.tokenFetches + 1, t.waitMs + 1000⟩

/-- The default retry budget (`retries = 2`, FileManager.tsx line 399). -/
def defaultRetries : Nat := 2

/-- An `apiCall` as invoked from the handlers: first session fetch is
attempt 0. -/
def apiCall (tokenAt : Nat → Option Str) (resp : HttpResponse)
    (retries : Nat) : ApiCallTrace :=
  apiCallFrom tokenAt resp 0 retries

/-- Helper: with a token source that never yields, the gateway fails with
the auth-not-ready error after `retries + 1` session fetches and
`1000 * retries` ms of backoff, from any starting attempt. -/
theorem apiCallFrom_no_token (tokenAt : Nat → Option Str)
    (resp : HttpResponse) (h : ∀ n, tokenAt n = none) :
    ∀ attempt retries, apiCallFrom tokenAt resp attempt retries
      = ⟨.error .authNotReady, retries + 1, 1000 * retries⟩ := by
  intro attempt retries
  induction retries generalizing attempt with
  | zero => simp [apiCallFrom, h attempt]
  | succ r ih =>
      simp only [apiCallFrom, h attempt, ih (attempt + 1)]
      congr 1

/-- Helper: if the token source yields a token within the retry budget, the
gateway does not fail with the auth-not-ready error. -/
theorem apiCallFrom_token_within (tokenAt : Nat → Option Str)
    (resp : HttpResponse) :
    ∀ retries attempt, (∃ k ≤ retries, (tokenAt (attempt + k)).isSome) →
      (apiCallFrom tokenAt resp attempt retries).result
        ≠ .error .authNotReady := by
  have hresp : (apiRespond resp).result ≠ .error .authNotReady := by
    unfold apiRespond
    split <;> simp
  intro retries
  induction retries with
  | zero =>
      intro attempt ⟨k, hk, hsome⟩
      interval_cases k
      simp only [Nat.add_zero] at hsome
      simp only [apiCallFrom]
      cases htok : tokenAt attempt with
      | none => rw [htok] at hsome; simp at hsome
      | some t => exact hresp
  | succ r ih =>
      intro attempt ⟨k, hk, hsome⟩
      simp only [apiCallFrom]
      cases htok : tokenAt attempt with
      | some t => exact hresp
      | none =>
          apply ih (attempt + 1)
          cases k with
          | zero => rw [Nat.add_zero] at hsome; rw [htok] at hsome; simp at hsome
          | succ k' =>
              refine ⟨k', Nat.le_of_succ_le_succ hk, ?_⟩
              have harith : attempt + 1 + k' = attempt + (k' + 1) := by ring
              rw [harith]; exact hsome

/-- C2: Retry bound of the Authenticated Request Gateway — with a token
source that never yields, a call waits the fixed 1000 ms backoff between
rounds, recursing with one fewer retry each round, and fails with the
auth-not-ready error exactly when the `retries` budget is exhausted (after
`retries + 1` token fetches, the default budget being 2); and a call whose
token source yields a token on some attempt within the budget never fails
with that error. -/
theorem apiCall_retry_bound (tokenAt : Nat → Option Str)
    (resp : HttpResponse) (retries : Nat) :
    ((∀ n, tokenAt n = none) →
       apiCall tokenAt resp retries
         = ⟨.error .authNotReady, retries + 1, 1000 * retries⟩)
    ∧ ((∃ k ≤ retries, (tokenAt k).isSome) →
       (apiCall tokenAt resp retries).result ≠ .error .authNotReady)
    ∧ defaultRetries = 2 := by
  refine ⟨fun h => ?_, fun ⟨k, hk, hs⟩ => ?_, rfl⟩
  · exact apiCallFrom_no_token tokenAt resp h 0 retries
  · exact apiCallFrom_token_within tokenAt resp retries 0
      ⟨k, hk, by rw [Nat.zero_add]; exact hs⟩

/-- Witness for the retry bound with the default budget of 2: a source that
never yields makes 3 token fetches, waits 2000 ms, and fails auth-not-ready;
a source yielding at attempt 1 does not fail auth-not-ready. -/
theorem apiCall_retry_bound_witness :
    apiCall (fun _ => none) ⟨200, none⟩ defaultRetries
        = ⟨.error .authNotReady, 3, 2000⟩
      ∧ (apiCall (fun n => if n = 1 then some "tok".data else none)
          ⟨200, none⟩ defaultRetries).result ≠ .error .authNotReady :=
  ⟨(apiCall_retry_bound (fun _ => none) ⟨200, none⟩ defaultRetries).1
      (fun _ => rfl),
   (apiCall_retry_bound (fun n => if n = 1 then some "tok".data else none)
      ⟨200, none⟩ defaultRetries).2.1 ⟨1, by decide, by decide⟩⟩

/-- C8: Application-error normalization — when a token is available and the
control-plane response carries a status code of at least 400, `apiCall`
fails with an error carrying the server-supplied body message (falling back
to the generic `API request failed` only when the body supplies none),
rather than returning the body as a success value. -/
theorem apiCall_app_error_normalization (tokenAt : Nat → Option Str)
    (resp : HttpResponse) (retries : Nat) (t : Str)
    (htok : tokenAt 0 = some t) (h400 : 400 ≤ resp.statusCode) :
    (apiCall tokenAt resp retries).result
      = .error (.requestRejected (resp.body.getD apiRequestFailedMsg)) := by
  unfold apiCall
  cases retries <;>
    simp [apiCallFrom, htok, apiRespond, if_pos h400]

/-- Witness for error normalization: a 403 response with body `denied`
fails carrying `denied`; a 500 response with an empty body carries the
generic fallback. -/
theorem apiCall_app_error_normalization_witness :
    (apiCall (fun _ => some "tok".data) ⟨403, some "denied".data⟩
        defaultRetries).result
      = .error (.requestRejected "denied".data)
    ∧ (apiCall (fun _ => some "tok".data) ⟨500, none⟩
        defaultRetries).result
      = .error (.requestRejected apiRequestFailedMsg) :=
  ⟨apiCall_app_error_normalization (fun _ => some "tok".data)
      ⟨403, some "denied".data⟩ defaultRetries "tok".data rfl (by decide),
   apiCall_app_error_normalization (fun _ => some "tok".data)
      ⟨500, none⟩ defaultRetries "tok".data rfl (by decide)⟩

/- ## Concurrent batches (`Promise.all`)

A settled batch is the list of each member's outcome.  `Promise.all`
rejects (with some member's reason) exactly when a member rejects; the
model surfaces the first rejection in list order. -/

/-- The first rejection reason in a settled batch, if any. -/
def firstError {α : Type} : List (Except Str α) → Option Str
  | [] => none
  | .ok _ :: rest => firstError rest
  | .error e :: _ => some e

/-- Helper: a batch has no rejection exactly when every member succeeded. -/
theorem firstError_eq_none_iff {α : Type} (rs : List (Except Str α)) :
    firstError rs = none ↔ ∀ r ∈ rs, ∃ a, r = .ok a := by
  induction rs with
  | nil => simp [firstError]
  | cons r rest ih =>
      cases r with
      | ok a => simp [firstError, ih]
      | error e => simp [firstError]

/-- Helper: a batch rejects exactly when some member rejected. -/
theorem firstError_isSome_iff {α : Type} (rs : List (Except Str α)) :
    (∃ e, firstError rs = some e) ↔ ∃ e, Except.error e ∈ rs := by
  induction rs with
  | nil => simp [firstError]
  | cons r rest ih =>
      cases r with
      | ok a => simp [firstError, ih]
      | error e => simp [firstError]

/- ## Batch upload (`handleUpload`, FileManager.tsx lines 493-519)

Each accepted file is uploaded concurrently (obtain an upload link, then
PUT the bytes); the whole `Promise.all` is awaited inside the `try`.  On
success the handler emits `Uploaded <n> file(s)` and calls `fetchFiles()`;
when the aggregate rejects, control jumps to `catch`, which emits
`Upload failed: <msg>` — the `fetchFiles()` on line 513 is *skipped*. -/

/-- Trace of one `handleUpload` run over the settled per-file transfer
outcomes: the message emitted and how many listing refreshes were issued. -/
structure UploadTrace where
  message : Str
  fetchFilesCalls : Nat
  deriving DecidableEq, Repr

/-- The success message `Uploaded <n> file(s)` (line 512). -/
def uploadedMsg (n : Nat) : Str :=
  "Uploaded ".data ++ (Nat.repr n).data ++ " file(s)".data

/-- The failure message `Upload failed: <msg>` (line 515). -/
def uploadFailedMsg (e : Str) : Str :=
  "Upload failed: ".data ++ e

/-- The `handleUpload` handler over the settled per-file outcomes
(FileManager.tsx lines 493-519). -/
def handleUpload (outcomes : List (Except Str Unit)) : UploadTrace :=
  match firstError outcomes with
  | none => ⟨uploadedMsg outcomes.length, 1⟩
  | some e => ⟨uploadFailedMsg e, 0⟩

/-- C3 counterexample: with three files whose second transfer rejects, the
reported outcome is indeed failure, but the listing refresh count is 0, not
the 1 the claim asserts — the refresh is skipped on a failed batch. -/
theorem handleUpload_failed_batch_no_refresh_cex :
    (handleUpload [.ok (), .error "network error".data, .ok ()]).message
        = uploadFailedMsg "network error".data
      ∧ (handleUpload [.ok (), .error "network error".data, .ok ()]
          ).fetchFilesCalls = 0
      ∧ ¬ (handleUpload [.ok (), .error "network error".data, .ok ()]
          ).fetchFilesCalls = 1 := by
  refine ⟨rfl, rfl, by decide⟩

/-- C3 amended: when at least one per-file transfer rejects the reported
outcome is failure (an `Upload failed` message, never the success message)
and *no* listing refresh is triggered; the single refresh happens exactly
in the all-success case. -/
theorem handleUpload_refresh_discipline (outcomes : List (Except Str Unit)) :
    ((∃ e, Except.error e ∈ outcomes) →
       (handleUpload outcomes).fetchFilesCalls = 0
         ∧ ∃ e, (handleUpload outcomes).message = uploadFailedMsg e)
    ∧ ((∀ r ∈ outcomes, r = .ok ()) →
       (handleUpload outcomes).fetchFilesCalls = 1
         ∧ (handleUpload outcomes).message = uploadedMsg outcomes.length) := by
  constructor
  · intro hfail
    have hsome : ∃ e, firstError outcomes = some e :=
      (firstError_isSome_iff outcomes).mpr hfail
    obtain ⟨e, he⟩ := hsome
    unfold handleUpload
    rw [he]
    exact ⟨rfl, e, rfl⟩
  · intro hok
    have hnone : firstError outcomes = none :=
      (firstError_eq_none_iff outcomes).mpr
        (fun r hr => ⟨(), hok r hr⟩)
    unfold handleUpload
    rw [hnone]
    exact ⟨rfl, rfl⟩

/-- Witness for the amended upload discipline at a failing batch and at an
all-success batch. -/
theorem handleUpload_refresh_discipline_witness :
    ((handleUpload [.ok (), .error "boom".data]).fetchFilesCalls = 0
      ∧ ∃ e, (handleUpload [.ok (), .error "boom".data]).message
          = uploadFailedMsg e)
    ∧ ((handleUpload [.ok (), .ok ()]).fetchFilesCalls = 1
      ∧ (handleUpload [.ok (), .ok ()]).message = uploadedMsg 2) :=
  ⟨(handleUpload_refresh_discipline [.ok (), .error "boom".data]).1
      ⟨"boom".data, by simp⟩,
   (handleUpload_refresh_discipline [.ok (), .ok ()]).2
      (by intro r hr; simpa using hr)⟩

/- ## Listing fetches (`fetchFiles` / `fetchBinFiles`, FileManager.tsx
lines 446-473)

`fetchFiles` lists the current scope, maps every returned key through
`cleanFileKey`, and replaces the `files` and `folders` state; on a gateway
failure the `catch` only emits `Failed to fetch files: <msg>` — the stored
listing state is left untouched.  `fetchBinFiles` does the same for the bin
scope through `cleanBinFileKey`. -/

/-- The client-side listing mirror: the `files`, `folders` and `binFiles`
React state. -/
structure ListingState where
  files : List Str
  folders : List Str
  binFiles : List Str
  deriving DecidableEq, Repr

/-- The parsed body of a successful `list` call: optional `files` and
`folders` arrays of absolute keys. -/
structure ListResponse where
  files : Option (List Str)
  folders : Option (List Str)
  deriving DecidableEq, Repr

/-- The `fetchFiles` handler (lines 446-459) as a transition on the stored
listing state, returning the new state and the surfaced error message, if
any. -/
def fetchFiles (username : Str) (st : ListingState)
    (call : Except Str ListResponse) : ListingState × Option Str :=
  match call with
  | .ok r =>
      (⟨(r.files.getD []).map (fun k => cleanFileKey k username),
        (r.folders.getD []).map (fun k => cleanFileKey k username),
        st.binFiles⟩, none)
  | .error e => (st, some ("Failed to fetch files: ".data ++ e))

/-- The `fetchBinFiles` handler (lines 461-473) as a transition on the
stored listing state. -/
def fetchBinFiles (username : Str) (st : ListingState)
    (call : Except Str ListResponse) : ListingState × Option Str :=
  match call with
  | .ok r =>
      (⟨st.files, st.folders,
        (r.files.getD []).map (fun k => cleanBinFileKey k username)⟩, none)
  | .error e => (st, some ("Failed to fetch bin: ".data ++ e))

/-- C4: Listing fetch atomicity on failure — whatever the prior listing
state, a failed gateway list call makes `fetchFiles` and `fetchBinFiles`
surface the failure and leave the stored file list, folder list and bin
list exactly as they were; neither ever replaces the prior listing with an
empty one on a failed fetch. -/
theorem fetch_failure_preserves_listing (username : Str)
    (st : ListingState) (e : Str) :
    fetchFiles username st (.error e)
        = (st, some ("Failed to fetch files: ".data ++ e))
      ∧ fetchBinFiles username st (.error e)
        = (st, some ("Failed to fetch bin: ".data ++ e)) :=
  ⟨rfl, rfl⟩

/- ## Move to bin / restore from bin (FileManager.tsx lines 566-589)

`moveToBin` qualifies the key against the current path and posts
`move_to_bin`; on success it emits a message and calls `fetchFiles()` and
`fetchBinFiles()` once each; the `catch` emits `Move failed: <msg>` and
issues no refresh.  `restoreFromBin` posts `restore_from_bin` with the
`bin/`-qualified key under the same discipline. -/

/-- Trace of one mutation handler run: the key sent to the control-plane,
the message emitted, and how many times each listing refresh was issued. -/
structure MutationTrace where
  sentKey : Str
  message : Str
  fetchFilesCalls : Nat
  fetchBinCalls : Nat
  deriving DecidableEq, Repr

/-- Key qualification against the current path (`currentPath ?
`currentPath` + key : key`, as on lines 569, 524, 546). -/
def scopedKey (currentPath k : Str) : Str :=
  if currentPath = [] then k else currentPath ++ k

/-- The `moveToBin` handler (lines 566-577) over the settled control-plane
outcome. -/
def moveToBin (currentPath fileKey : Str)
    (call : Except Str Unit) : MutationTrace :=
  let moveKey := scopedKey currentPath fileKey
  match call with
  | .ok _ =>
      ⟨moveKey,
       "Moved \"".data ++ fileKey ++ "\" to bin".data, 1, 1⟩
  | .error e => ⟨moveKey, "Move failed: ".data ++ e, 0, 0⟩

/-- The `restoreFromBin` handler (lines 579-589) over the settled
control-plane outcome. -/
def restoreFromBin (fileKey : Str) (call : Except Str Unit) : MutationTrace :=
  let restoreKey := "bin/".data ++ fileKey
  match call with
  | .ok _ =>
      ⟨restoreKey,
       "Restored \"".data ++ fileKey ++ "\" from bin".data, 1, 1⟩
  | .error e => ⟨restoreKey, "Restore failed: ".data ++ e, 0, 0⟩

/-- C5: Move-to-bin effect discipline — for every current path and relative
path, a successful move-to-bin call refreshes the current listing and the
bin listing exactly once each, while a failed call issues neither refresh
and surfaces the error; and the same discipline holds for
restore-from-bin. -/
theorem mutation_refresh_discipline (currentPath fileKey : Str) (e : Str) :
    ((moveToBin currentPath fileKey (.ok ())).fetchFilesCalls = 1
      ∧ (moveToBin currentPath fileKey (.ok ())).fetchBinCalls = 1)
    ∧ ((moveToBin currentPath fileKey (.error e)).fetchFilesCalls = 0
      ∧ (moveToBin currentPath fileKey (.error e)).fetchBinCalls = 0
      ∧ (moveToBin currentPath fileKey (.error e)).message
          = "Move failed: ".data ++ e)
    ∧ ((restoreFromBin fileKey (.ok ())).fetchFilesCalls = 1
      ∧ (restoreFromBin fileKey (.ok ())).fetchBinCalls = 1)
    ∧ ((restoreFromBin fileKey (.error e)).fetchFilesCalls = 0
      ∧ (restoreFromBin fileKey (.error e)).fetchBinCalls = 0
      ∧ (restoreFromBin fileKey (.error e)).message
          = "Restore failed: ".data ++ e) :=
  ⟨⟨rfl, rfl⟩, ⟨rfl, rfl, rfl⟩, ⟨rfl, rfl⟩, ⟨rfl, rfl, rfl⟩⟩

/- ## Batch download (`handleMultipleDownload`, FileManager.tsx lines
536-564)

With an empty selection the handler only emits a notice.  Otherwise each
selected file key is qualified against the current path, a retrieval link
is requested and its bytes fetched, all concurrently; once every fetch
settles, one archive blob is produced and saved as `download.zip`, the
success message is emitted and the selection is cleared.  Any rejection
jumps to `catch`: a `Download failed` message, no archive, and the
selection is untouched. -/

/-- Trace of one `handleMultipleDownload` run: the message emitted, whether
an archive blob was produced and saved, and the selection state left
behind. -/
structure DownloadTrace where
  message : Str
  archiveEmitted : Bool
  selectedAfter : List Str
  deriving DecidableEq, Repr

/-- The success message `Downloaded <n> file(s)` (line 557). -/
def downloadedMsg (n : Nat) : Str :=
  "Downloaded ".data ++ (Nat.repr n).data ++ " file(s)".data

/-- The failure message `Download failed: <msg>` (line 560). -/
def downloadFailedMsg (e : Str) : Str :=
  "Download failed: ".data ++ e

/-- The `handleMultipleDownload` handler over the settled per-file
link-plus-fetch outcomes, given by `fetchOutcome` per qualified download
key (FileManager.tsx lines 536-564). -/
def handleMultipleDownload (currentPath : Str) (selected : List Str)
    (fetchOutcome : Str → Except Str Unit) : DownloadTrace :=
  if selected = [] then
    ⟨"No files selected for download".data, false, selected⟩
  else
    match firstError
        (selected.map (fun k => fetchOutcome (scopedKey currentPath k))) with
    | none => ⟨downloadedMsg selected.length, true, []⟩
    | some e => ⟨downloadFailedMsg e, false, selected⟩

/-- C6: Batch download selection clearing — for every non-empty selection,
the selection set is cleared exactly when every per-file link request and
byte fetch succeeded; when any individual fetch fails the whole batch is
reported failed, no archive is emitted, and the selection is left
unchanged. -/
theorem multiDownload_selection_clearing (currentPath : Str)
    (selected : List Str) (fetchOutcome : Str → Except Str Unit)
    (hne : selected ≠ []) :
    ((handleMultipleDownload currentPath selected fetchOutcome).selectedAfter
        = []
      ↔ ∀ k ∈ selected, fetchOutcome (scopedKey currentPath k) = .ok ())
    ∧ ((∃ k ∈ selected,
          ∃ e, fetchOutcome (scopedKey currentPath k) = .error e) →
        (handleMultipleDownload currentPath selected fetchOutcome
          ).archiveEmitted = false
        ∧ (handleMultipleDownload currentPath selected fetchOutcome
          ).selectedAfter = selected
        ∧ ∃ e, (handleMultipleDownload currentPath selected fetchOutcome
          ).message = downloadFailedMsg e) := by
  unfold handleMultipleDownload
  rw [if_neg hne]
  constructor
  · cases hfe : firstError
        (selected.map (fun k => fetchOutcome (scopedKey currentPath k))) with
    | none =>
        simp only [iff_true_intro rfl, true_iff]
        have hall := (firstError_eq_none_iff _).mp hfe
        intro k hk
        obtain ⟨a, ha⟩ := hall _ (List.mem_map_of_mem _ hk)
        rw [ha]
    | some e =>
        simp only []
        constructor
        · intro habs; exact absurd habs hne
        · intro hall
          have hnone : firstError
              (selected.map (fun k => fetchOutcome (scopedKey currentPath k)))
                = none := by
            apply (firstError_eq_none_iff _).mpr
            intro r hr
            obtain ⟨k, hk, hkr⟩ := List.mem_map.mp hr
            exact ⟨(), by rw [← hkr]; exact hall k hk⟩
          rw [hfe] at hnone
          exact absurd hnone (by simp)
  · intro ⟨k, hk, e, he⟩
    have hsome : ∃ e', firstError
        (selected.map (fun k => fetchOutcome (scopedKey currentPath k)))
          = some e' := by
      apply (firstError_isSome_iff _).mpr
      exact ⟨e, List.mem_map.mpr ⟨k, hk, he⟩⟩
    obtain ⟨e', he'⟩ := hsome
    rw [he']
    exact ⟨rfl, rfl, e', rfl⟩

/-- Witness for selection clearing at a concrete two-file selection where
the second fetch fails: the batch reports failure, emits no archive, and
keeps the selection. -/
theorem multiDownload_selection_clearing_witness :
    (((handleMultipleDownload "b/".data ["x.txt".data, "y.txt".data]
        (fun k => if k = "b/y.txt".data then .error "denied".data
                  else .ok ())).selectedAfter = [])
      ↔ ∀ k ∈ ["x.txt".data, "y.txt".data],
          (fun k => if k = "b/y.txt".data then
              (.error "denied".data : Except Str Unit) else .ok ())
            (scopedKey "b/".data k) = .ok ())
    ∧ ((∃ k ∈ ["x.txt".data, "y.txt".data],
          ∃ e, (fun k => if k = "b/y.txt".data then
              (.error "denied".data : Except Str Unit) else .ok ())
            (scopedKey "b/".data k) = .error e) →
        (handleMultipleDownload "b/".data ["x.txt".data, "y.txt".data]
          (fun k => if k = "b/y.txt".data then .error "denied".data
                    else .ok ())).archiveEmitted = false
        ∧ (handleMultipleDownload "b/".data ["x.txt".data, "y.txt".data]
          (fun k => if k = "b/y.txt".data then .error "denied".data
                    else .ok ())).selectedAfter
            = ["x.txt".data, "y.txt".data]
        ∧ ∃ e, (handleMultipleDownload "b/".data
            ["x.txt".data, "y.txt".data]
            (fun k => if k = "b/y.txt".data then .error "denied".data
                      else .ok ())).message = downloadFailedMsg e) :=
  multiDownload_selection_clearing "b/".data ["x.txt".data, "y.txt".data]
    (fun k => if k = "b/y.txt".data then .error "denied".data else .ok ())
    (by decide)

/- ## Listing partition (Listing Service, spec section 4.3)

The client-side `fetchFiles` receives `files` and `folders` already split
by the control-plane; the partition algorithm itself runs server-side and
its code is not part of this repository's sources. -/

/-- Modelled from the spec: the control-plane's listing partition (spec
sections 4.3 and 8), absent from `src/`.  Entries are taken relative to the
scope; an entry with no further path separator beyond the scope is a file,
an entry with at least one further separator is attributed (deduplicated)
to its immediate child folder. -/
def partitionListing (scope : Str) (entries : List Str) :
    List Str × List Str :=
  let rel := entries.filterMap (fun e =>
    if e.take scope.length = scope then some (e.drop scope.length) else none)
  let fileEntries := rel.filter (fun e => ¬ e.contains '/')
  let folderEntries :=
    ((rel.filter (fun e => e.contains '/')).map
      (fun e => e.takeWhile (fun c => c ≠ '/'))).eraseDups
  (fileEntries, folderEntries)

/-- C7: Listing partition completeness — for the synthetic listing
`a.txt`, `docs/b.txt`, `docs/sub/c.txt` under scope `""`, the partition
reports files `a.txt` and folders `docs` only: the two-level-deep entry is
attributed to its immediate child folder `docs` and deduplicated. -/
theorem listing_partition_example :
    partitionListing [] ["a.txt".data, "docs/b.txt".data,
        "docs/sub/c.txt".data]
      = (["a.txt".data], ["docs".data]) := by
  decide

/- ## Navigation & Selection state (FileManager.tsx lines 591-630)

`navigateToFolder` appends the clicked folder name (which the listing
renders slash-terminated) to the current path; `navigateUp` splits the path
on `/`, drops empty segments, pops the last one and re-joins with a
trailing slash (or yields the root `""`); `toggleFileSelection` adds or
removes one key from `selectedFiles`.  The `useEffect` keyed on
`currentPath` (lines 619-630) re-runs the two listing fetches but touches
no other state — in particular it does not clear the selection. -/

/-- The navigation-relevant React state: the current path and the selected
file keys. -/
structure NavState where
  currentPath : Str
  selectedFiles : List Str
  deriving DecidableEq, Repr

/-- The `navigateUp` path computation (lines 597-603). -/
def navUpPath (p : Str) : Str :=
  let parts := (List.splitOn '/' p).filter (fun s => decide (s ≠ []))
  let parts := parts.dropLast
  if parts = [] then [] else (List.intercalate "/".data parts) ++ "/".data

/-- The `navigateToFolder` handler (lines 591-594). -/
def navigateToFolder (st : NavState) (folder : Str) : NavState :=
  ⟨if st.currentPath = [] then folder else st.currentPath ++ folder,
   st.selectedFiles⟩

/-- The `navigateUp` handler (lines 596-603). -/
def navigateUp (st : NavState) : NavState :=
  ⟨navUpPath st.currentPath, st.selectedFiles⟩

/-- The `toggleFileSelection` handler (lines 605-612). -/
def toggleFileSelection (st : NavState) (fileKey : Str) : NavState :=
  ⟨st.currentPath,
   if st.selectedFiles.contains fileKey then
     st.selectedFiles.filter (fun k => k ≠ fileKey)
   else st.selectedFiles ++ [fileKey]⟩

/-- C9 counterexample: select `x.txt` while the path is `a/`, then navigate
up and into `b/`; the selection still contains `x.txt`, and a batch
download triggered there resolves it against the `b/` scope as `b/x.txt` —
the file *is* silently retained. -/
theorem selection_retained_across_navigation_cex :
    (navigateToFolder (navigateUp
        (toggleFileSelection ⟨"a/".data, []⟩ "x.txt".data)) "b/".data)
      = ⟨"b/".data, ["x.txt".data]⟩
    ∧ ((navigateToFolder (navigateUp
        (toggleFileSelection ⟨"a/".data, []⟩ "x.txt".data)) "b/".data
        ).selectedFiles.map (fun k => scopedKey "b/".data k))
      = ["b/x.txt".data] := by
  constructor <;> decide

/-- C9 amended: navigation never touches the selection set — both
`navigateToFolder` and `navigateUp` leave `selectedFiles` unchanged, so a
file selected under one path stays selected after navigating and is
resolved against the new scope by a later batch download. -/
theorem navigation_preserves_selection (st : NavState) (folder : Str) :
    (navigateToFolder st folder).selectedFiles = st.selectedFiles
    ∧ (navigateUp st).selectedFiles = st.selectedFiles :=
  ⟨rfl, rfl⟩

/-- A current path is well-formed when it is the root (empty) or ends in a
slash. -/
def pathWellFormed (p : Str) : Prop :=
  p = [] ∨ p.getLast? = some '/'

/-- C10: Current-path well-formedness — assuming the folder name passed to
`navigateToFolder` is slash-terminated (as the listing renders them), both
`navigateToFolder` and `navigateUp` yield a well-formed current path,
and `navigateUp` applied at the root returns the root without failing. -/
theorem navigation_path_wellformed (st : NavState) (folder : Str)
    (sel : List Str) (hf : folder.getLast? = some '/') :
    pathWellFormed (navigateToFolder st folder).currentPath
    ∧ pathWellFormed (navigateUp st).currentPath
    ∧ (navigateUp ⟨[], sel⟩).currentPath = [] := by
  refine ⟨?_, ?_, rfl⟩
  · have hfne : folder ≠ [] := by
      intro habs; rw [habs] at hf; simp at hf
    unfold navigateToFolder pathWellFormed
    by_cases hp : st.currentPath = []
    · rw [if_pos hp]; exact Or.inr hf
    · rw [if_neg hp]
      exact Or.inr ((List.getLast?_append_of_ne_nil _ hfne).trans hf)
  · unfold navigateUp navUpPath pathWellFormed
    set parts :=
      ((List.splitOn '/' st.currentPath).filter
        (fun s => decide (s ≠ []))).dropLast with hparts
    by_cases hp : parts = []
    · rw [if_pos hp]; exact Or.inl rfl
    · rw [if_neg hp]
      exact Or.inr (List.getLast?_concat _)

/-- Witness for path well-formedness at `st = ⟨"a/b/", ["x"]⟩`,
`folder = "docs/"`. -/
theorem navigation_path_wellformed_witness :
    pathWellFormed
        (navigateToFolder ⟨"a/b/".data, ["x".data]⟩ "docs/".data).currentPath
    ∧ pathWellFormed (navigateUp ⟨"a/b/".data, ["x".data]⟩).currentPath
    ∧ (navigateUp ⟨([] : Str), ["x".data]⟩).currentPath = [] :=
  navigation_path_wellformed ⟨"a/b/".data, ["x".data]⟩ "docs/".data
    ["x".data] (by decide)

end CloudVault
